import Mathlib

/-!
# Verification of the AWSAgenticAgent core (`src/agentic_aws/agent.py`)

A shallow embedding of the agentic tool-use loop, the Cloud Control
executor, the operation poller, the CloudWatch log query and the narration
generator of `AWSAgenticAgent`, together with theorems settling the frozen
claims about them.

Conventions of the embedding:
* External collaborators (the boto3 Cloud Control client, the CloudWatch
  Logs client, the Anthropic text-generation client, pydantic input
  validation, `json.loads`/`json.dumps`, timestamp formatting) are passed
  in as oracle records of pure functions; a fallible call is a function
  into `Except`.
* Python falsiness of optional strings / dicts (`None` and empty are both
  falsy) is modelled by `pyTruthy` / `pyTruthyProps`.
* Python floats in the poller (`delay`, `elapsed`) are modelled by `ℚ`:
  every value the poller computes from its inputs (`* 1.5`, `min _ 30.0`,
  sums) is a dyadic rational, represented exactly by both binary floats
  and `ℚ`.  `int(...)` truncation toward zero is `pyInt`.
* The executor additionally returns the trace of provider resource calls
  it issued, so that "no provider call attempted" claims are statable.
* Creating the boto3 session/client object itself (which performs no
  provider call and cannot raise `botocore.ClientError`) is not modelled.
* The `while` loops are given explicit fuel; theorems either supply
  enough fuel or hold for every fuel.
-/

/-- Opaque stand-in for a parsed JSON property document (`dict[str, Any]`):
an ordered key/value list with values kept as opaque strings. -/
abbrev PropMap := List (String × String)

/-- Python truthiness of an optional string: `None` and `""` are falsy. -/
def pyTruthy : Option String → Bool
  | none => false
  | some s => decide (0 < s.length)

/-- Python truthiness of an optional property mapping: `None` and the empty
dict are falsy. -/
def pyTruthyProps : Option PropMap → Bool
  | none => false
  | some l => !l.isEmpty

/-- `botocore.exceptions.ClientError`: `message`/`code` model
`e.response["Error"]["Message"]` / `...["Code"]` (absent keys are `none`),
`excStr` models `str(e)`. -/
structure ClientError where
  message : Option String
  code : Option String
  excStr : String
  deriving DecidableEq, Repr

/-- `e.response.get("Error", {}).get("Message", str(e))`. -/
def ClientError.errMsg (e : ClientError) : String :=
  e.message.getD e.excStr

/-- The `AWSOperation` literal type of `models.py`. -/
inductive AWSOperation
  | create
  | read
  | update
  | delete
  | list
  deriving DecidableEq, Repr

/-- The string an `AWSOperation` renders to in a result dict. -/
def AWSOperation.toStr : AWSOperation → String
  | .create => "create"
  | .read => "read"
  | .update => "update"
  | .delete => "delete"
  | .list => "list"

/-- The `OperationStatus` literal type (`"success" | "error"`). -/
inductive OperationStatus
  | success
  | error
  deriving DecidableEq, Repr

/-- The string an `OperationStatus` renders to in a result dict. -/
def OperationStatus.toStr : OperationStatus → String
  | .success => "success"
  | .error => "error"

/-- One entry of the JSON-patch document built by `_handle_update_operation`:
`[{"op": "replace", "path": f"/{key}", "value": value} ...]`. -/
structure PatchOp where
  op : String
  path : String
  value : String
  deriving DecidableEq, Repr

/-- `response.get("ProgressEvent", {})` of a create/update/delete response. -/
structure CCProgressEvent where
  requestToken : Option String
  deriving DecidableEq, Repr

/-- A Cloud Control create/update/delete response: the optional
`ProgressEvent` and `str(response)`. -/
structure CudResponse where
  progressEvent : Option CCProgressEvent
  reprStr : String
  deriving DecidableEq, Repr

/-- One entry of `response["ResourceDescriptions"]`; `properties` is the
optional opaque `Properties` JSON document. -/
structure ResourceDescription where
  properties : Option String
  deriving DecidableEq, Repr

/-- A Cloud Control `list_resources` response. -/
structure ListResponse where
  resourceDescriptions : List ResourceDescription
  nextToken : Option String
  reprStr : String
  deriving DecidableEq, Repr

/-- A Cloud Control `get_resource` response:
`response["ResourceDescription"]["Properties"]` and `str(response)`. -/
structure ReadResponse where
  properties : String
  reprStr : String
  deriving DecidableEq, Repr

/-- The Cloud Control API client (boto3 `cloudcontrol`), as an oracle of
pure fallible functions, plus `json.loads` / `json.dumps` for the opaque
property documents. -/
structure CloudControlClient where
  create_resource : String → String → Except ClientError CudResponse
  list_resources : String → Int → Option String → Except ClientError ListResponse
  get_resource : String → String → Except ClientError ReadResponse
  update_resource : String → String → List PatchOp → Except ClientError CudResponse
  delete_resource : String → String → Except ClientError CudResponse
  parseJson : String → PropMap
  dumpJson : PropMap → String

/-- The trace of provider resource calls the executor issued, with the
arguments it submitted. -/
inductive ProviderCall
  | createResource (typeName desiredState : String)
  | listResources (typeName : String) (maxResults : Int) (nextToken : Option String)
  | getResource (typeName identifier : String)
  | updateResource (typeName identifier : String) (patch : List PatchOp)
  | deleteResource (typeName identifier : String)
  deriving DecidableEq, Repr

/-- The wide `OperationResult` pydantic model of `models.py`; every optional
field defaults to `none` exactly as in the source.  `operation` is kept as
its rendered string (the dict-level view `model_dump` produces). -/
structure OperationResult where
  status : OperationStatus
  operation : String
  resource_type : String
  identifier : Option String := none
  request_token : Option String := none
  message : Option String := none
  count : Option Nat := none
  total_count : Option Nat := none
  resources : Option (List PropMap) := none
  properties : Option PropMap := none
  next_token : Option String := none
  error : Option String := none
  aws_response : Option String := none
  aws_error : Option String := none
  deriving DecidableEq, Repr

/-- `AWSAgenticAgent._handle_create_operation`. -/
def _handle_create_operation (cc : CloudControlClient) (resource_type : String)
    (properties : Option PropMap) : OperationResult × List ProviderCall :=
  let desired : String :=
    if pyTruthyProps properties then cc.dumpJson (properties.getD []) else "\x7b\x7d"
  match cc.create_resource resource_type desired with
  | .error e =>
      ({ status := .error, operation := "create", resource_type,
         error := some ("Failed to create resource: " ++ e.errMsg),
         aws_error := some e.excStr },
       [.createResource resource_type desired])
  | .ok resp =>
      match resp.progressEvent with
      | none =>
          ({ status := .error, operation := "create", resource_type,
             error := some "Invalid response from AWS Cloud Control API",
             aws_response := some resp.reprStr },
           [.createResource resource_type desired])
      | some pe =>
          if pyTruthy pe.requestToken then
            ({ status := .success, operation := "create", resource_type,
               request_token := pe.requestToken,
               message := some ("Creating " ++ resource_type ++ "..."),
               aws_response := some resp.reprStr },
             [.createResource resource_type desired])
          else
            ({ status := .error, operation := "create", resource_type,
               error := some "No request token received from AWS",
               aws_response := some resp.reprStr },
             [.createResource resource_type desired])

/-- `AWSAgenticAgent._handle_list_operation`:
`MaxResults` submitted to the provider is `min(max_results, 100)`. -/
def _handle_list_operation (cc : CloudControlClient) (resource_type : String)
    (max_results : Int) (next_token : Option String) :
    OperationResult × List ProviderCall :=
  let maxR : Int := min max_results 100
  match cc.list_resources resource_type maxR next_token with
  | .error e =>
      ({ status := .error, operation := "list", resource_type,
         error := some ("Failed to list resources: " ++ e.errMsg),
         aws_error := some e.excStr },
       [.listResources resource_type maxR next_token])
  | .ok resp =>
      let resources := resp.resourceDescriptions
      ({ status := .success, operation := "list", resource_type,
         count := some resources.length,
         resources := some (resources.map fun r => cc.parseJson (r.properties.getD "\x7b\x7d")),
         next_token := resp.nextToken,
         message := some ("Retrieved " ++ toString resources.length ++ " resources"
           ++ (if resp.nextToken.isSome then " (more available)" else "")),
         aws_response := some resp.reprStr },
       [.listResources resource_type maxR next_token])

/-- `AWSAgenticAgent._handle_read_operation`. -/
def _handle_read_operation (cc : CloudControlClient) (resource_type identifier : String) :
    OperationResult × List ProviderCall :=
  match cc.get_resource resource_type identifier with
  | .error e =>
      ({ status := .error, operation := "read", resource_type,
         identifier := some identifier,
         error := some ("Failed to read resource: " ++ e.errMsg),
         aws_error := some e.excStr },
       [.getResource resource_type identifier])
  | .ok resp =>
      ({ status := .success, operation := "read", resource_type,
         identifier := some identifier,
         properties := some (cc.parseJson resp.properties),
         aws_response := some resp.reprStr },
       [.getResource resource_type identifier])

/-- `AWSAgenticAgent._handle_update_operation`: requires non-falsy
`properties`, builds one `replace` patch per top-level key, and reports
success with whatever `RequestToken` the progress event carried (no
missing-token check, unlike create). -/
def _handle_update_operation (cc : CloudControlClient) (resource_type identifier : String)
    (properties : Option PropMap) : OperationResult × List ProviderCall :=
  if pyTruthyProps properties then
    let patch : List PatchOp :=
      (properties.getD []).map fun kv => { op := "replace", path := "/" ++ kv.1, value := kv.2 }
    match cc.update_resource resource_type identifier patch with
    | .error e =>
        ({ status := .error, operation := "update", resource_type,
           identifier := some identifier,
           error := some ("Failed to update resource: " ++ e.errMsg),
           aws_error := some e.excStr },
         [.updateResource resource_type identifier patch])
    | .ok resp =>
        match resp.progressEvent with
        | none =>
            ({ status := .error, operation := "update", resource_type,
               identifier := some identifier,
               error := some "Invalid response from AWS Cloud Control API",
               aws_response := some resp.reprStr },
             [.updateResource resource_type identifier patch])
        | some pe =>
            ({ status := .success, operation := "update", resource_type,
               identifier := some identifier,
               request_token := pe.requestToken,
               message := some ("Updating " ++ resource_type ++ " (" ++ identifier ++ ")..."),
               aws_response := some resp.reprStr },
             [.updateResource resource_type identifier patch])
  else
    ({ status := .error, operation := "update", resource_type,
       identifier := some identifier,
       error := some "Properties are required for update operations" },
     [])

/-- `AWSAgenticAgent._handle_delete_operation`: reports success with
whatever `RequestToken` the progress event carried (no missing-token
check, unlike create). -/
def _handle_delete_operation (cc : CloudControlClient) (resource_type identifier : String) :
    OperationResult × List ProviderCall :=
  match cc.delete_resource resource_type identifier with
  | .error e =>
      ({ status := .error, operation := "delete", resource_type,
         identifier := some identifier,
         error := some ("Failed to delete resource: " ++ e.errMsg),
         aws_error := some e.excStr },
       [.deleteResource resource_type identifier])
  | .ok resp =>
      match resp.progressEvent with
      | none =>
          ({ status := .error, operation := "delete", resource_type,
             identifier := some identifier,
             error := some "Invalid response from AWS Cloud Control API",
             aws_response := some resp.reprStr },
           [.deleteResource resource_type identifier])
      | some pe =>
          ({ status := .success, operation := "delete", resource_type,
             identifier := some identifier,
             request_token := pe.requestToken,
             message := some ("Deleting " ++ resource_type ++ " (" ++ identifier ++ ")..."),
             aws_response := some resp.reprStr },
           [.deleteResource resource_type identifier])

/-- The error result of the `read`/`update`/`delete`-without-identifier
branch of `_execute_aws_operation`. -/
def missingIdentifierResult (operation : AWSOperation) (resource_type : String) :
    OperationResult :=
  { status := .error, operation := operation.toStr, resource_type,
    error := some ("Operation \x27" ++ operation.toStr ++ "\x27 requires an identifier") }

/-- `AWSAgenticAgent._execute_aws_operation`: dispatch on the operation,
guarded by Python truthiness of `identifier` for read/update/delete.
(The final "Unknown operation" branch of the source is unreachable for the
`AWSOperation` enum and has no counterpart here.) -/
def _execute_aws_operation (cc : CloudControlClient) (operation : AWSOperation)
    (resource_type : String) (identifier : Option String) (properties : Option PropMap)
    (max_results : Int) (next_token : Option String) :
    OperationResult × List ProviderCall :=
  match operation with
  | .create => _handle_create_operation cc resource_type properties
  | .list => _handle_list_operation cc resource_type max_results next_token
  | .read =>
      if pyTruthy identifier then
        _handle_read_operation cc resource_type (identifier.getD "")
      else (missingIdentifierResult .read resource_type, [])
  | .update =>
      if pyTruthy identifier then
        _handle_update_operation cc resource_type (identifier.getD "") properties
      else (missingIdentifierResult .update resource_type, [])
  | .delete =>
      if pyTruthy identifier then
        _handle_delete_operation cc resource_type (identifier.getD "")
      else (missingIdentifierResult .delete resource_type, [])

/-- One element of `response["events"]` from `filter_log_events`. -/
structure LogEvent where
  timestamp : Int
  message : String
  logStreamName : String
  deriving DecidableEq, Repr

/-- A `filter_log_events` response. -/
structure LogsResponse where
  events : List LogEvent
  deriving DecidableEq, Repr

/-- The CloudWatch Logs client as an oracle: `filter_log_events` keyed by
the log group name (the time window is computed from the ambient clock and
the filter pattern is the constant `"ERROR"`; neither affects any claim),
and `fmtTimestamp` modelling
`datetime.fromtimestamp(ms / 1000).isoformat()`. -/
structure LogsClient where
  filter_log_events : String → Except ClientError LogsResponse
  fmtTimestamp : Int → String

/-- One formatted entry of `error_logs`. -/
structure LogEntry where
  timestamp : String
  message : String
  logStreamName : String
  deriving DecidableEq, Repr

/-- The `CloudWatchResult` pydantic model. -/
structure CloudWatchResult where
  status : OperationStatus
  function_name : String
  hours_back : Option Int := none
  error_count : Option Nat := none
  error_logs : Option (List LogEntry) := none
  error : Option String := none
  deriving DecidableEq, Repr

/-- `AWSAgenticAgent._query_cloudwatch_logs`: `error_count` is the length
of the full matched-event list, `error_logs` keeps only its first 10
entries. -/
def _query_cloudwatch_logs (lc : LogsClient) (function_name : String) (hours_back : Int) :
    CloudWatchResult :=
  match lc.filter_log_events ("/aws/lambda/" ++ function_name) with
  | .ok resp =>
      let error_logs := resp.events.map fun e =>
        LogEntry.mk (lc.fmtTimestamp e.timestamp) e.message e.logStreamName
      { status := .success, function_name,
        hours_back := some hours_back,
        error_count := some error_logs.length,
        error_logs := some (error_logs.take 10) }
  | .error e =>
      { status := .error, function_name, error := some e.errMsg }

/-- The `OperationProgressStatus` literal type of `models.py`. -/
inductive OpPStatus
  | PENDING
  | IN_PROGRESS
  | SUCCESS
  | FAILED
  | CANCEL_IN_PROGRESS
  | CANCEL_COMPLETE
  deriving DecidableEq, Repr

/-- The terminal-status test of `_poll_operation_status`:
`operation_status in ("SUCCESS", "FAILED", "CANCEL_COMPLETE")`. -/
def OpPStatus.isTerminal : OpPStatus → Bool
  | .SUCCESS => true
  | .FAILED => true
  | .CANCEL_COMPLETE => true
  | _ => false

/-- `response.get("ProgressEvent", {})` of a `get_resource_request_status`
response; a missing `ProgressEvent` key is the all-`none` record. -/
structure PollEvent where
  operationStatus : Option OpPStatus
  typeName : Option String
  identifier : Option String
  statusMessage : Option String
  errorCode : Option String
  deriving DecidableEq, Repr

/-- The `OperationProgress` pydantic model. -/
structure OperationProgress where
  request_token : String
  operation_status : OpPStatus
  resource_type : String
  identifier : Option String := none
  status_message : Option String := none
  error_code : Option String := none
  retry_after : Option Int := none
  deriving DecidableEq, Repr

/-- Python `int(...)` on a float/rational: truncation toward zero. -/
def pyInt (q : ℚ) : Int :=
  if 0 ≤ q then q.floor else -((-q).floor)

/-- The progress record returned on a terminal status. -/
def terminalPoll (request_token : String) (pe : PollEvent) (st : OpPStatus) :
    OperationProgress :=
  { request_token, operation_status := st,
    resource_type := pe.typeName.getD "",
    identifier := pe.identifier,
    status_message := pe.statusMessage,
    error_code := pe.errorCode }

/-- The synthetic FAILED record returned when the status query raises
`ClientError`. -/
def failedPoll (request_token : String) (e : ClientError) : OperationProgress :=
  { request_token, operation_status := .FAILED, resource_type := "",
    status_message := some ("Failed to poll status: " ++ e.errMsg),
    error_code := e.code }

/-- The synthetic soft-timeout record returned when `max_wait_seconds` is
exhausted: status IN_PROGRESS and `retry_after = int(delay)` for the
current (last computed) delay. -/
def timeoutPoll (request_token : String) (max_wait_seconds : Int) (delay : ℚ) :
    OperationProgress :=
  { request_token, operation_status := .IN_PROGRESS, resource_type := "",
    status_message := some ("Operation still in progress after "
      ++ toString max_wait_seconds ++ "s"),
    retry_after := some (pyInt delay) }

/-- The `while elapsed < max_wait_seconds` loop of
`AWSAgenticAgent._poll_operation_status`.  `statusCall n` is the outcome of
the `n`-th `get_resource_request_status` call; the result also reports how
many status calls were made and the trace of sleep delays, in order.
`none` means the fuel ran out before the loop did. -/
def pollLoop (statusCall : Nat → Except ClientError PollEvent) (request_token : String)
    (max_wait_seconds : Int) :
    Nat → ℚ → ℚ → Nat → Option (OperationProgress × Nat × List ℚ)
  | 0, _, _, _ => none
  | fuel + 1, delay, elapsed, calls =>
      if elapsed < (max_wait_seconds : ℚ) then
        match statusCall calls with
        | .error e => some (failedPoll request_token e, calls + 1, [])
        | .ok pe =>
            let operation_status := pe.operationStatus.getD .PENDING
            if operation_status.isTerminal then
              some (terminalPoll request_token pe operation_status, calls + 1, [])
            else
              match pollLoop statusCall request_token max_wait_seconds fuel
                  (min (delay * (3 / 2)) 30) (elapsed + delay) (calls + 1) with
              | none => none
              | some (p, c, sleeps) => some (p, c, delay :: sleeps)
      else
        some (timeoutPoll request_token max_wait_seconds delay, calls, [])

/-- `AWSAgenticAgent._poll_operation_status`: starts the loop with
`delay = initial_delay`, `elapsed = 0.0`, ceiling `max_delay = 30.0`. -/
def _poll_operation_status (statusCall : Nat → Except ClientError PollEvent)
    (request_token : String) (max_wait_seconds : Int) (initial_delay : ℚ)
    (fuel : Nat) : Option (OperationProgress × Nat × List ℚ) :=
  pollLoop statusCall request_token max_wait_seconds fuel initial_delay 0 0

/-- An Anthropic API failure: `apiConnection` carries `str(e)`,
`apiStatus` carries `e.message`. -/
inductive GenError
  | apiConnection (s : String)
  | apiStatus (message : String)
  deriving DecidableEq, Repr

/-- The inputs interpolated into `ERROR_DIAGNOSIS_PROMPT`. -/
structure DiagRequest where
  operation : String
  resource_type : String
  error_message : String
  error_code : String
  deriving DecidableEq, Repr

/-- The inputs interpolated into `SUMMARY_PROMPT`. -/
structure SumRequest where
  tool_name : String
  tool_result : String
  user_question : String
  deriving DecidableEq, Repr

/-- `AWSAgenticAgent._diagnose_error`: invokes the text-generation oracle
on the diagnosis prompt inputs; on an `APIConnectionError` or
`APIStatusError` it degrades to `f"Error: {error_message}"` and never
raises (its type is total). -/
def _diagnose_error (diagGen : DiagRequest → Except GenError String)
    (operation resource_type error_message : String) (error_code : Option String) :
    String :=
  let code := if pyTruthy error_code then error_code.getD "" else "Not provided"
  match diagGen ⟨operation, resource_type, error_message, code⟩ with
  | .ok text => text
  | .error _ => "Error: " ++ error_message

/-- The dict-level view of a tool result (`model_dump()` output, or the
raw dict for unknown tools), restricted to the keys `_generate_summary`
reads plus `dump`, its serialized form as embedded in prompts, history and
printed output (stands for `json.dumps(result)`). -/
structure ResultDict where
  status : Option String
  operation : Option String
  resource_type : Option String
  error : Option String
  aws_error : Option String
  dump : String
  deriving DecidableEq, Repr

/-- A simple serialization standing for `json.dumps` of an
`OperationResult` dict. -/
def OperationResult.dumpStr (r : OperationResult) : String :=
  "status=" ++ r.status.toStr ++ ";operation=" ++ r.operation
    ++ ";resource_type=" ++ r.resource_type
    ++ ";error=" ++ r.error.getD "null"
    ++ ";message=" ++ r.message.getD "null"

/-- The dict view of an `OperationResult`. -/
def OperationResult.toDict (r : OperationResult) : ResultDict :=
  { status := some r.status.toStr, operation := some r.operation,
    resource_type := some r.resource_type, error := r.error,
    aws_error := r.aws_error, dump := r.dumpStr }

/-- A simple serialization standing for `json.dumps` of a
`CloudWatchResult` dict. -/
def CloudWatchResult.dumpStr (r : CloudWatchResult) : String :=
  "status=" ++ r.status.toStr ++ ";function_name=" ++ r.function_name
    ++ ";error_count=" ++ (r.error_count.map toString).getD "null"
    ++ ";error=" ++ r.error.getD "null"

/-- The dict view of a `CloudWatchResult` (it has no `operation`,
`resource_type` or `aws_error` keys). -/
def CloudWatchResult.toDict (r : CloudWatchResult) : ResultDict :=
  { status := some r.status.toStr, operation := none, resource_type := none,
    error := r.error, aws_error := none, dump := r.dumpStr }

/-- The `{"error": f"Unknown tool: {tool_name}"}` dict (it has no `status`
key). -/
def unknownToolDict (tool_name : String) : ResultDict :=
  { status := none, operation := none, resource_type := none,
    error := some ("Unknown tool: " ++ tool_name), aws_error := none,
    dump := "error=Unknown tool: " ++ tool_name }

/-- Exceptions that can unwind out of tool execution:
`ToolExecutionError` (from `_generate_summary`) and the `TypeError` Python
raises when `cloudwatch_logs` is invoked without `function_name`. -/
inductive AgentError
  | toolExecution (msg : String)
  | typeError (msg : String)
  deriving DecidableEq, Repr

/-- `AWSAgenticAgent._generate_summary`: error results are diagnosed
(total); for non-error results a text-generation failure is rewrapped as a
raised `ToolExecutionError`. -/
def _generate_summary (diagGen : DiagRequest → Except GenError String)
    (sumGen : SumRequest → Except GenError String)
    (tool_name : String) (tool_result : ResultDict) (user_question : String) :
    Except AgentError String :=
  if tool_result.status == some "error" then
    .ok (_diagnose_error diagGen
      (tool_result.operation.getD "unknown")
      (tool_result.resource_type.getD "unknown")
      (tool_result.error.getD "Unknown error")
      tool_result.aws_error)
  else
    match sumGen ⟨tool_name, tool_result.dump, user_question⟩ with
    | .ok text => .ok text
    | .error (.apiConnection s) =>
        .error (.toolExecution ("Failed to connect to Anthropic API: " ++ s))
    | .error (.apiStatus m) =>
        .error (.toolExecution ("Anthropic API error: " ++ m))

/-- The tool-input dict as emitted by the model: the keys the dispatcher
reads directly.  (For `aws_cloud_control` the whole dict goes through the
external pydantic validator, modelled by the `validate` oracle.) -/
structure ToolInput where
  operation : Option String := none
  resource_type : Option String := none
  function_name : Option String := none
  hours_back : Option Int := none
  deriving DecidableEq, Repr

/-- The validated `AWSResourceInput` pydantic model. -/
structure AWSResourceInput where
  operation : AWSOperation
  resource_type : String
  identifier : Option String := none
  properties : Option PropMap := none
  region : String := "us-east-1"
  max_results : Int := 20
  next_token : Option String := none
  deriving DecidableEq, Repr

/-- A segment of a model response / assistant turn: a text segment or a
tool-call segment. -/
inductive ContentBlock
  | text (s : String)
  | toolUse (id name : String) (input : ToolInput)
  deriving DecidableEq, Repr

/-- The call id of a tool-call segment, `none` for text. -/
def ContentBlock.callId : ContentBlock → Option String
  | .toolUse id _ _ => some id
  | .text _ => none

/-- A model stop reason: the loop distinguishes `"end_turn"`,
`"tool_use"` and everything else. -/
inductive StopReason
  | end_turn
  | tool_use
  | otherReason (s : String)
  deriving DecidableEq, Repr

/-- A text-generation response: ordered content segments plus the stop
reason. -/
structure ModelResponse where
  content : List ContentBlock
  stop_reason : StopReason
  deriving DecidableEq, Repr

/-- One tool-result entry appended to the tool-result turn:
`{"type": "tool_result", "tool_use_id": ..., "content": json.dumps(result)}`. -/
structure ToolResultEntry where
  tool_use_id : String
  content : String
  deriving DecidableEq, Repr

/-- The content of one history entry: a plain string (user turn), the
assistant content segments, or the tool-result entries. -/
inductive TurnContent
  | ofString (s : String)
  | ofBlocks (bs : List ContentBlock)
  | ofResults (rs : List ToolResultEntry)
  deriving DecidableEq, Repr

/-- One history entry (`{"role": ..., "content": ...}`). -/
structure Turn where
  role : String
  content : TurnContent
  deriving DecidableEq, Repr

/-- All external collaborators of the loop driver: the loop-level
text-generation call (keyed by the history it is sent), the pydantic
validator, the two provider clients and the two narration calls (keyed by
their prompt inputs). -/
structure AgentEnv where
  loopGen : List Turn → Except GenError ModelResponse
  validate : ToolInput → Except String AWSResourceInput
  cloudcontrol : CloudControlClient
  logs : LogsClient
  diagGen : DiagRequest → Except GenError String
  sumGen : SumRequest → Except GenError String

/-- `AWSAgenticAgent._execute_tool`: dispatches on the tool name, runs the
operation, and narrates the result.  A `ToolExecutionError` raised by
`_generate_summary` (and the `TypeError` of a missing
`function_name`) propagates. -/
def _execute_tool (env : AgentEnv) (tool_name : String) (tool_input : ToolInput)
    (user_input : String) : Except AgentError (ResultDict × String) :=
  if tool_name == "aws_cloud_control" then
    let result : ResultDict :=
      match env.validate tool_input with
      | .ok v =>
          (_execute_aws_operation env.cloudcontrol v.operation v.resource_type
            v.identifier v.properties v.max_results v.next_token).1.toDict
      | .error e =>
          (OperationResult.mk .error (tool_input.operation.getD "unknown")
            (tool_input.resource_type.getD "unknown") none none none none none
            none none none (some ("Validation error: " ++ e)) none none).toDict
    match _generate_summary env.diagGen env.sumGen tool_name result user_input with
    | .error e => .error e
    | .ok summary => .ok (result, "\n\nAI Summary:\n" ++ summary)
  else if tool_name == "cloudwatch_logs" then
    match tool_input.function_name with
    | none => .error (.typeError "cloudwatch_logs called without function_name")
    | some fn =>
        let result := (_query_cloudwatch_logs env.logs fn (tool_input.hours_back.getD 1)).toDict
        match _generate_summary env.diagGen env.sumGen tool_name result user_input with
        | .error e => .error e
        | .ok summary =>
            .ok (result, "\n\nCloudWatch Logs Result:\n" ++ result.dump
              ++ "\n\nAI Summary:\n" ++ summary)
  else
    .ok (unknownToolDict tool_name,
      "\n\nError: Unknown tool \x27" ++ tool_name ++ "\x27")

/-- The per-iteration accumulator of `process_request`:
`assistant_content`, `tool_results` and the running `response_text`. -/
structure BlockAcc where
  assistant_content : List ContentBlock
  tool_results : List ToolResultEntry
  response_text : String
  deriving DecidableEq, Repr

/-- The walk over one response's content segments: text segments are
concatenated and recorded; tool-call segments are executed, their narrated
output appended, the call and its serialized result recorded.  An
exception from `_execute_tool` propagates. -/
def runBlocks (env : AgentEnv) (user_input : String) :
    List ContentBlock → BlockAcc → Except AgentError BlockAcc
  | [], acc => .ok acc
  | .text s :: rest, acc =>
      runBlocks env user_input rest
        { acc with
          response_text := acc.response_text ++ s,
          assistant_content := acc.assistant_content ++ [.text s] }
  | .toolUse id name input :: rest, acc =>
      match _execute_tool env name input user_input with
      | .error e => .error e
      | .ok (result, formatted) =>
          runBlocks env user_input rest
            { response_text := acc.response_text ++ formatted,
              assistant_content := acc.assistant_content ++ [.toolUse id name input],
              tool_results := acc.tool_results ++ [⟨id, result.dump⟩] }

/-- The end-of-iteration history update: append one assistant turn with
all content segments, then one tool-result turn when any tool was
called. -/
def appendTurns (history : List Turn) (acc : BlockAcc) : List Turn :=
  let h1 := history ++ [Turn.mk "assistant" (.ofBlocks acc.assistant_content)]
  if acc.tool_results.isEmpty then h1
  else h1 ++ [Turn.mk "user" (.ofResults acc.tool_results)]

/-- The note appended when the iteration budget is exhausted. -/
def maxIterNote : String := "\n\n(Note: Maximum processing steps reached)"

/-- The diagnostic string returned when a loop-level generation call
raises (`except anthropic.APIConnectionError / APIStatusError`). -/
def generationErrorText : GenError → String
  | .apiConnection s => "Error: Failed to connect to Anthropic API: " ++ s
  | .apiStatus m => "Error: Anthropic API error: " ++ m

/-- The `while iteration < max_iterations` loop of
`AWSAgenticAgent.process_request`, on the remaining iteration budget.
`final_response` is the buffer carried between iterations; each iteration
OVERWRITES it with that iteration's `response_text`.  The budget note is
appended whenever the loop ends with `iteration >= max_iterations`,
i.e. on exhaustion or on a break in the final iteration.  Anthropic
failures of the loop-level generation call are caught and returned as a
diagnostic string; exceptions from tool execution propagate. -/
def processLoop (env : AgentEnv) (user_input : String) :
    Nat → List Turn → String → Except AgentError (String × List Turn)
  | 0, history, final_response => .ok (final_response ++ maxIterNote, history)
  | fuel + 1, history, final_response =>
      match env.loopGen history with
      | .error e => .ok (generationErrorText e, history)
      | .ok response =>
          match runBlocks env user_input response.content ⟨[], [], ""⟩ with
          | .error e => .error e
          | .ok acc =>
              let history2 := appendTurns history acc
              match response.stop_reason with
              | .tool_use => processLoop env user_input fuel history2 acc.response_text
              | _ =>
                  if fuel == 0 then .ok (acc.response_text ++ maxIterNote, history2)
                  else .ok (acc.response_text, history2)

/-- `AWSAgenticAgent.process_request`: append the user turn, then run the
loop over the iteration budget with an empty response buffer. -/
def process_request (env : AgentEnv) (user_input : String) (history : List Turn)
    (max_iterations : Nat) : Except AgentError (String × List Turn) :=
  processLoop env user_input max_iterations
    (history ++ [Turn.mk "user" (.ofString user_input)]) ""

/-- The history turns one budget-exhausting iteration appends, repeated:
one assistant turn then one tool-result turn per iteration. -/
def iterTurns (ac : List ContentBlock) (trs : List ToolResultEntry) : Nat → List Turn
  | 0 => []
  | n + 1 =>
      Turn.mk "assistant" (.ofBlocks ac) :: Turn.mk "user" (.ofResults trs)
        :: iterTurns ac trs n

/-- The value of the poller's `delay` variable after the given sleep
trace: the initial delay if no sleep happened, otherwise the last slept
delay grown once (`min (last * 1.5) 30`). -/
def lastComputedDelay (initial : ℚ) : List ℚ → ℚ
  | [] => initial
  | s :: ss => lastComputedDelay (min (s * (3 / 2)) 30) ss

/-- A status-call outcome that keeps the poller polling: a successful
response whose status is non-terminal. -/
def nonTerminalOk (r : Except ClientError PollEvent) : Prop :=
  ∃ pe, r = .ok pe ∧ (pe.operationStatus.getD .PENDING).isTerminal = false

/-- A Cloud Control client whose every call fails (used where provider
behaviour must not matter). -/
def failingCC : CloudControlClient where
  create_resource := fun _ _ => .error ⟨none, none, "unreachable"⟩
  list_resources := fun _ _ _ => .error ⟨none, none, "unreachable"⟩
  get_resource := fun _ _ => .error ⟨none, none, "unreachable"⟩
  update_resource := fun _ _ _ => .error ⟨none, none, "unreachable"⟩
  delete_resource := fun _ _ => .error ⟨none, none, "unreachable"⟩
  parseJson := fun _ => []
  dumpJson := fun _ => ""

/-- A client whose `list_resources` returns two resource documents and no
next token. -/
def listCC : CloudControlClient :=
  { failingCC with
    list_resources := fun _ _ _ => .ok ⟨[⟨some "docA"⟩, ⟨none⟩], none, "listresp"⟩,
    parseJson := fun s => [("doc", s)] }

/-- A client whose `update_resource` answers with a progress event that
carries no `RequestToken`. -/
def c8CC : CloudControlClient :=
  { failingCC with update_resource := fun _ _ _ => .ok ⟨some ⟨none⟩, "updresp"⟩ }

/-- A log event used in concrete runs. -/
def c10Event : LogEvent := ⟨1704067200000, "ERROR: boom", "stream-1"⟩

/-- A logs client returning eleven matched events. -/
def c10Logs : LogsClient :=
  ⟨fun _ => .ok ⟨List.replicate 11 c10Event⟩, fun _ => "2024-01-01T00:00:00"⟩

/-- A logs client returning no events. -/
def emptyLogs : LogsClient := ⟨fun _ => .ok ⟨[]⟩, fun _ => "t"⟩

/-- A status oracle that always reports IN_PROGRESS. -/
def nonTermStatus : Nat → Except ClientError PollEvent :=
  fun _ => .ok ⟨some .IN_PROGRESS, none, none, none, none⟩

/-- The expected soft-timeout record of the `max_wait_seconds = 5`,
`initial_delay = 10` scenario: the poller returns `retry_after = 15`. -/
def c2wProg : OperationProgress :=
  { request_token := "tok", operation_status := .IN_PROGRESS, resource_type := "",
    status_message := some "Operation still in progress after 5s",
    retry_after := some 15 }

/-- The tool input of the C1 run: a `cloudwatch_logs` call. -/
def c1Input : ToolInput := { function_name := some "orders" }

/-- Environment for the C1 run: the model requests one `cloudwatch_logs`
call, the log query succeeds, and the summary narration call hits a
connection failure. -/
def c1Env : AgentEnv where
  loopGen := fun _ => .ok ⟨[.toolUse "call-1" "cloudwatch_logs" c1Input], .tool_use⟩
  validate := fun _ => .error "unused"
  cloudcontrol := failingCC
  logs := emptyLogs
  diagGen := fun _ => .ok "diagnosis"
  sumGen := fun _ => .error (.apiConnection "boom")

/-- Environment whose loop-level generation call always fails with a
connection error. -/
def c1wEnv : AgentEnv where
  loopGen := fun _ => .error (.apiConnection "down")
  validate := fun _ => .error "unused"
  cloudcontrol := failingCC
  logs := emptyLogs
  diagGen := fun _ => .ok "diagnosis"
  sumGen := fun _ => .ok "summary"

/-- An empty tool input. -/
def noInput : ToolInput := {}

/-- First-iteration response of the C3 run: text "ALPHA" plus a tool call. -/
def c3RespA : ModelResponse :=
  ⟨[.text "ALPHA", .toolUse "t1" "nosuch" noInput], .tool_use⟩

/-- Later-iteration response of the C3 run: text "BETA" plus a tool call. -/
def c3RespB : ModelResponse :=
  ⟨[.text "BETA", .toolUse "t2" "nosuch" noInput], .tool_use⟩

/-- Environment for the C3 run: the model emits "ALPHA" in the first
iteration and "BETA" afterwards, always requesting a tool call and never
signalling completion. -/
def c3cEnv : AgentEnv where
  loopGen := fun h => if h.length == 1 then .ok c3RespA else .ok c3RespB
  validate := fun _ => .error "unused"
  cloudcontrol := failingCC
  logs := emptyLogs
  diagGen := fun _ => .ok "diagnosis"
  sumGen := fun _ => .ok "summary"

/-- A constant model response requesting one (unknown) tool call. -/
def c3wResp : ModelResponse := ⟨[.toolUse "t1" "nosuch" noInput], .tool_use⟩

/-- Environment whose model always answers with `c3wResp`. -/
def c3wEnv : AgentEnv where
  loopGen := fun _ => .ok c3wResp
  validate := fun _ => .error "unused"
  cloudcontrol := failingCC
  logs := emptyLogs
  diagGen := fun _ => .ok "diagnosis"
  sumGen := fun _ => .ok "summary"

/-- A model response with one text segment and two tool-call segments. -/
def c7wResp : ModelResponse :=
  ⟨[.text "hi", .toolUse "a1" "x" noInput, .toolUse "a2" "y" noInput], .end_turn⟩

/-- Environment whose model always answers with `c7wResp`. -/
def c7wEnv : AgentEnv where
  loopGen := fun _ => .ok c7wResp
  validate := fun _ => .error "unused"
  cloudcontrol := failingCC
  logs := emptyLogs
  diagGen := fun _ => .ok "diagnosis"
  sumGen := fun _ => .ok "summary"

/-- A result dict with a success status (used to exercise the summary
narration path). -/
def c9SuccessDict : ResultDict :=
  { status := some "success", operation := some "list",
    resource_type := some "AWS::S3::Bucket", error := none, aws_error := none,
    dump := "status=success" }

/-- The status/error discipline of an `OperationResult`: an error result
carries a nonempty error message, a success result carries no error. -/
def ResultInv (r : OperationResult) : Prop :=
  (r.status = .error → 0 < (r.error.getD "").length) ∧
  (r.status = .success → r.error = none)

/-- A client whose `create_resource` answers with a request token. -/
def c8wCC : CloudControlClient :=
  { failingCC with create_resource := fun _ _ => .ok ⟨some ⟨some "tok-1"⟩, "createresp"⟩ }

/-! ## Shared lemmas -/

/-- `Rat.floor` is the floor of the `FloorRing` instance on `ℚ`. -/
theorem ratFloor_eq_intFloor (q : ℚ) : Rat.floor q = ⌊q⌋ := rfl

/-- A string with a nonempty left part is nonempty. -/
theorem length_append_left_pos (s t : String) (h : 0 < s.length) :
    0 < (s ++ t).length := by
  rw [String.length_append]
  omega

/-- `lastComputedDelay` steps over the head of the sleep trace. -/
theorem lastComputedDelay_cons (d a : ℚ) (ss : List ℚ) :
    lastComputedDelay d (a :: ss) = lastComputedDelay (min (a * (3 / 2)) 30) ss := rfl

/-! ## C4 — missing identifier on read/update/delete -/

/-- C4: for every `read`/`update`/`delete` call whose identifier is
missing (Python-falsy), the executor returns an error result whose
message names the operation and the word "identifier", and issues no
provider resource call. -/
theorem C4_missing_identifier (cc : CloudControlClient) (op : AWSOperation)
    (rt : String) (ident : Option String) (props : Option PropMap)
    (mr : Int) (nt : Option String)
    (hop : op = .read ∨ op = .update ∨ op = .delete)
    (hid : pyTruthy ident = false) :
    (_execute_aws_operation cc op rt ident props mr nt).1.status = .error ∧
    (_execute_aws_operation cc op rt ident props mr nt).1.error =
      some ("Operation \x27" ++ op.toStr ++ "\x27 requires an identifier") ∧
    (_execute_aws_operation cc op rt ident props mr nt).2 = [] := by
  rcases hop with h | h | h <;> subst h <;>
    simp [_execute_aws_operation, hid, missingIdentifierResult]

/-- C4 witness: a concrete `read` call without identifier. -/
theorem C4_missing_identifier_witness :
    (_execute_aws_operation failingCC .read "AWS::S3::Bucket" none none 20 none).1.status
        = .error ∧
    (_execute_aws_operation failingCC .read "AWS::S3::Bucket" none none 20 none).1.error =
      some ("Operation \x27" ++ AWSOperation.toStr .read ++ "\x27 requires an identifier") ∧
    (_execute_aws_operation failingCC .read "AWS::S3::Bucket" none none 20 none).2 = [] :=
  C4_missing_identifier failingCC .read "AWS::S3::Bucket" none none 20 none
    (Or.inl rfl) rfl

/-! ## C5 — list count and MaxResults cap -/

/-- C5: for every successful `list` call, `count` equals the length of the
returned resource sequence (each entry parsed from its property document),
and the `MaxResults` value submitted to the provider is
`min(max_results, 100)`, hence never exceeds 100. -/
theorem C5_list_count_and_cap (cc : CloudControlClient) (rt : String)
    (ident : Option String) (props : Option PropMap) (mr : Int)
    (nt : Option String) (resp : ListResponse)
    (h : cc.list_resources rt (min mr 100) nt = .ok resp) :
    (_execute_aws_operation cc .list rt ident props mr nt).1.status = .success ∧
    (_execute_aws_operation cc .list rt ident props mr nt).1.count =
      some resp.resourceDescriptions.length ∧
    (_execute_aws_operation cc .list rt ident props mr nt).1.resources =
      some (resp.resourceDescriptions.map fun r =>
        cc.parseJson (r.properties.getD "\x7b\x7d")) ∧
    ((_execute_aws_operation cc .list rt ident props mr nt).1.resources.getD []).length =
      resp.resourceDescriptions.length ∧
    (_execute_aws_operation cc .list rt ident props mr nt).2 =
      [ProviderCall.listResources rt (min mr 100) nt] ∧
    min mr 100 ≤ 100 := by
  simp [_execute_aws_operation, _handle_list_operation, h]

/-- C5 witness: a list call requesting 200 results is submitted with
`MaxResults = 100` and reports `count = 2` for two returned documents. -/
theorem C5_list_count_and_cap_witness :
    (_execute_aws_operation listCC .list "AWS::S3::Bucket" none none 200 none).1.status
        = .success ∧
    (_execute_aws_operation listCC .list "AWS::S3::Bucket" none none 200 none).1.count =
      some (ListResponse.resourceDescriptions ⟨[⟨some "docA"⟩, ⟨none⟩], none, "listresp"⟩).length ∧
    (_execute_aws_operation listCC .list "AWS::S3::Bucket" none none 200 none).1.resources =
      some ((ListResponse.resourceDescriptions ⟨[⟨some "docA"⟩, ⟨none⟩], none, "listresp"⟩).map
        fun r => listCC.parseJson (r.properties.getD "\x7b\x7d")) ∧
    ((_execute_aws_operation listCC .list "AWS::S3::Bucket" none none 200 none).1.resources.getD
        []).length =
      (ListResponse.resourceDescriptions ⟨[⟨some "docA"⟩, ⟨none⟩], none, "listresp"⟩).length ∧
    (_execute_aws_operation listCC .list "AWS::S3::Bucket" none none 200 none).2 =
      [ProviderCall.listResources "AWS::S3::Bucket" (min 200 100) none] ∧
    min (200 : Int) 100 ≤ 100 :=
  C5_list_count_and_cap listCC "AWS::S3::Bucket" none none 200 none
    ⟨[⟨some "docA"⟩, ⟨none⟩], none, "listresp"⟩ rfl

/-! ## C8 — result status/error invariant -/

/-- The create handler keeps the status/error discipline, and its success
results carry a non-falsy request token. -/
theorem resultInv_create (cc : CloudControlClient) (rt : String) (props : Option PropMap) :
    ResultInv (_handle_create_operation cc rt props).1 ∧
    ((_handle_create_operation cc rt props).1.status = .success →
      pyTruthy (_handle_create_operation cc rt props).1.request_token = true) := by
  rcases hcr : cc.create_resource rt
      (if pyTruthyProps props then cc.dumpJson (props.getD []) else "\x7b\x7d") with e | resp
  · simp [ResultInv, _handle_create_operation, hcr]
    exact Or.inl (by decide)
  · rcases hpe : resp.progressEvent with _ | pe
    · simp [ResultInv, _handle_create_operation, hcr, hpe]
      decide
    · by_cases ht : pyTruthy pe.requestToken
      · simp [ResultInv, _handle_create_operation, hcr, hpe, ht]
      · simp [ResultInv, _handle_create_operation, hcr, hpe, ht]
        decide

/-- The list handler keeps the status/error discipline. -/
theorem resultInv_list (cc : CloudControlClient) (rt : String) (mr : Int)
    (nt : Option String) : ResultInv (_handle_list_operation cc rt mr nt).1 := by
  rcases hlr : cc.list_resources rt (min mr 100) nt with e | resp
  · simp [ResultInv, _handle_list_operation, hlr]
    exact Or.inl (by decide)
  · simp [ResultInv, _handle_list_operation, hlr]

/-- The read handler keeps the status/error discipline. -/
theorem resultInv_read (cc : CloudControlClient) (rt ident : String) :
    ResultInv (_handle_read_operation cc rt ident).1 := by
  rcases hrr : cc.get_resource rt ident with e | resp
  · simp [ResultInv, _handle_read_operation, hrr]
    exact Or.inl (by decide)
  · simp [ResultInv, _handle_read_operation, hrr]

/-- The update handler keeps the status/error discipline. -/
theorem resultInv_update (cc : CloudControlClient) (rt ident : String)
    (props : Option PropMap) : ResultInv (_handle_update_operation cc rt ident props).1 := by
  by_cases hp : pyTruthyProps props
  · rcases hur : cc.update_resource rt ident
        ((props.getD []).map fun kv => { op := "replace", path := "/" ++ kv.1, value := kv.2 })
      with e | resp
    · simp [ResultInv, _handle_update_operation, hp, hur]
      exact Or.inl (by decide)
    · rcases hpe : resp.progressEvent with _ | pe
      · simp [ResultInv, _handle_update_operation, hp, hur, hpe]
        decide
      · simp [ResultInv, _handle_update_operation, hp, hur, hpe]
  · simp [ResultInv, _handle_update_operation, hp]
    decide

/-- The delete handler keeps the status/error discipline. -/
theorem resultInv_delete (cc : CloudControlClient) (rt ident : String) :
    ResultInv (_handle_delete_operation cc rt ident).1 := by
  rcases hdr : cc.delete_resource rt ident with e | resp
  · simp [ResultInv, _handle_delete_operation, hdr]
    exact Or.inl (by decide)
  · rcases hpe : resp.progressEvent with _ | pe
    · simp [ResultInv, _handle_delete_operation, hdr, hpe]
      decide
    · simp [ResultInv, _handle_delete_operation, hdr, hpe]

/-- The missing-identifier error result keeps the status/error discipline. -/
theorem resultInv_missingIdentifier (op : AWSOperation) (rt : String) :
    ResultInv (missingIdentifierResult op rt) := by
  constructor
  · intro _
    simp only [missingIdentifierResult]
    cases op <;> decide
  · intro h
    simp [missingIdentifierResult] at h

/-- C8 (amended): every executor result satisfies `status = error` implies
a nonempty `error` field, and `status = success` implies `error` is
absent; a successful `create` additionally carries a non-falsy request
token.  (Successful `update`/`delete` results carry whatever token the
provider's progress event held, possibly none — see the counterexample.) -/
theorem C8_executor_result_invariant (cc : CloudControlClient) (op : AWSOperation)
    (rt : String) (ident : Option String) (props : Option PropMap) (mr : Int)
    (nt : Option String) :
    ResultInv (_execute_aws_operation cc op rt ident props mr nt).1 ∧
    (op = .create →
      (_execute_aws_operation cc op rt ident props mr nt).1.status = .success →
      pyTruthy (_execute_aws_operation cc op rt ident props mr nt).1.request_token = true) := by
  cases op with
  | create =>
      exact ⟨(resultInv_create cc rt props).1, fun _ => (resultInv_create cc rt props).2⟩
  | list =>
      exact ⟨resultInv_list cc rt mr nt, fun h => nomatch h⟩
  | read =>
      refine ⟨?_, fun h => nomatch h⟩
      by_cases hid : pyTruthy ident
      · simp only [_execute_aws_operation, hid, if_true]
        exact resultInv_read cc rt (ident.getD "")
      · simp only [_execute_aws_operation, hid, Bool.false_eq_true, if_false]
        exact resultInv_missingIdentifier .read rt
  | update =>
      refine ⟨?_, fun h => nomatch h⟩
      by_cases hid : pyTruthy ident
      · simp only [_execute_aws_operation, hid, if_true]
        exact resultInv_update cc rt (ident.getD "") props
      · simp only [_execute_aws_operation, hid, Bool.false_eq_true, if_false]
        exact resultInv_missingIdentifier .update rt
  | delete =>
      refine ⟨?_, fun h => nomatch h⟩
      by_cases hid : pyTruthy ident
      · simp only [_execute_aws_operation, hid, if_true]
        exact resultInv_delete cc rt (ident.getD "")
      · simp only [_execute_aws_operation, hid, Bool.false_eq_true, if_false]
        exact resultInv_missingIdentifier .delete rt

/-- C8 witness: a concrete successful create carries the provider's token
and no error. -/
theorem C8_executor_result_invariant_witness :
    pyTruthy (_execute_aws_operation c8wCC .create "AWS::S3::Bucket" none
        (some [("BucketName", "b")]) 20 none).1.request_token = true ∧
    (_execute_aws_operation c8wCC .create "AWS::S3::Bucket" none
        (some [("BucketName", "b")]) 20 none).1.error = none :=
  ⟨(C8_executor_result_invariant c8wCC .create "AWS::S3::Bucket" none
      (some [("BucketName", "b")]) 20 none).2 rfl rfl,
   (C8_executor_result_invariant c8wCC .create "AWS::S3::Bucket" none
      (some [("BucketName", "b")]) 20 none).1.2 rfl⟩

/-- C8 counterexample: a successful update whose provider progress event
carried no `RequestToken` yields `status = success` with
`request_token = none` — the claim that every successful update carries a
request token fails on this input. -/
theorem C8_counterexample :
    (_execute_aws_operation c8CC .update "AWS::X::Y" (some "id1")
        (some [("k", "v")]) 20 none).1.status = .success ∧
    (_execute_aws_operation c8CC .update "AWS::X::Y" (some "id1")
        (some [("k", "v")]) 20 none).1.request_token = none := by
  constructor <;> rfl

/-! ## C10 — log truncation vs error count -/

/-- C10: a successful log query reports `error_count` equal to the total
number of matched events, while `error_logs` keeps only the first 10
formatted entries from the front of the provider's event sequence, so the
count may exceed the list's length. -/
theorem C10_log_truncation (lc : LogsClient) (fn : String) (hb : Int)
    (resp : LogsResponse)
    (h : lc.filter_log_events ("/aws/lambda/" ++ fn) = .ok resp) :
    (_query_cloudwatch_logs lc fn hb).status = .success ∧
    (_query_cloudwatch_logs lc fn hb).error_count = some resp.events.length ∧
    (_query_cloudwatch_logs lc fn hb).error_logs =
      some ((resp.events.map fun e =>
        LogEntry.mk (lc.fmtTimestamp e.timestamp) e.message e.logStreamName).take 10) ∧
    ((_query_cloudwatch_logs lc fn hb).error_logs.getD []).length =
      min 10 resp.events.length := by
  simp [_query_cloudwatch_logs, h]

/-- C10 witness: eleven matched events give `error_count = 11` but only
ten returned entries. -/
theorem C10_log_truncation_witness :
    (_query_cloudwatch_logs c10Logs "orders" 1).status = .success ∧
    (_query_cloudwatch_logs c10Logs "orders" 1).error_count =
      some (LogsResponse.events ⟨List.replicate 11 c10Event⟩).length ∧
    (_query_cloudwatch_logs c10Logs "orders" 1).error_logs =
      some (((LogsResponse.events ⟨List.replicate 11 c10Event⟩).map fun e =>
        LogEntry.mk (c10Logs.fmtTimestamp e.timestamp) e.message e.logStreamName).take 10) ∧
    ((_query_cloudwatch_logs c10Logs "orders" 1).error_logs.getD []).length =
      min 10 (LogsResponse.events ⟨List.replicate 11 c10Event⟩).length :=
  C10_log_truncation c10Logs "orders" 1 ⟨List.replicate 11 c10Event⟩ rfl

/-! ## C9 — narration failure modes -/

/-- C9: a text-generation failure on the diagnosis path degrades to the
raw error message (prefixed by "Error: ") and never raises — the summary
wrapper returns it as a plain value for every error result; while a
connectivity or provider failure on the summary path of a non-error
result is raised to the caller as a `ToolExecutionError`. -/
theorem C9_narration_failure_modes
    (diagGen : DiagRequest → Except GenError String)
    (sumGen : SumRequest → Except GenError String)
    (o r m : String) (code : Option String) (g : GenError)
    (tool_name : String) (rd : ResultDict) (uq s em : String) :
    (diagGen ⟨o, r, m, if pyTruthy code then code.getD "" else "Not provided"⟩ =
        .error g →
      _diagnose_error diagGen o r m code = "Error: " ++ m) ∧
    (rd.status = some "error" →
      _generate_summary diagGen sumGen tool_name rd uq =
        .ok (_diagnose_error diagGen (rd.operation.getD "unknown")
          (rd.resource_type.getD "unknown") (rd.error.getD "Unknown error")
          rd.aws_error)) ∧
    (rd.status ≠ some "error" →
      sumGen ⟨tool_name, rd.dump, uq⟩ = .error (.apiConnection s) →
      _generate_summary diagGen sumGen tool_name rd uq =
        .error (.toolExecution ("Failed to connect to Anthropic API: " ++ s))) ∧
    (rd.status ≠ some "error" →
      sumGen ⟨tool_name, rd.dump, uq⟩ = .error (.apiStatus em) →
      _generate_summary diagGen sumGen tool_name rd uq =
        .error (.toolExecution ("Anthropic API error: " ++ em))) := by
  refine ⟨fun h => ?_, fun h => ?_, fun hn h => ?_, fun hn h => ?_⟩
  · simp [_diagnose_error, h]
  · simp [_generate_summary, h]
  · simp [_generate_summary, hn, h]
  · simp [_generate_summary, hn, h]

/-- C9 witness: with a failing diagnosis call the error result is narrated
as the raw message; with a failing summary call the success result raises
a tool-execution failure. -/
theorem C9_narration_failure_modes_witness :
    _diagnose_error (fun _ => .error (.apiConnection "net down")) "list"
      "AWS::S3::Bucket" "AccessDenied" none = "Error: " ++ "AccessDenied" ∧
    _generate_summary (fun _ => .error (.apiConnection "net down"))
      (fun _ => .error (.apiConnection "net down")) "aws_cloud_control"
      c9SuccessDict "list buckets" =
      .error (.toolExecution ("Failed to connect to Anthropic API: " ++ "net down")) :=
  ⟨(C9_narration_failure_modes (fun _ => .error (.apiConnection "net down"))
      (fun _ => .error (.apiConnection "net down")) "list" "AWS::S3::Bucket"
      "AccessDenied" none (.apiConnection "net down") "aws_cloud_control"
      c9SuccessDict "list buckets" "net down" "x").1 rfl,
   (C9_narration_failure_modes (fun _ => .error (.apiConnection "net down"))
      (fun _ => .error (.apiConnection "net down")) "list" "AWS::S3::Bucket"
      "AccessDenied" none (.apiConnection "net down") "aws_cloud_control"
      c9SuccessDict "list buckets" "net down" "x").2.2.1 (by decide) rfl⟩

/-! ## C2 — soft timeout of the poller -/

/-- C2 (amended): whenever the poller's status calls keep reporting
non-terminal statuses and the loop returns, the wall-clock budget was
exhausted and the result is a synthetic IN_PROGRESS record whose
`retry_after` is the truncation of the `delay` variable's final value —
the last slept delay already grown once by 1.5 (capped), not the last
slept delay itself. -/
theorem C2_soft_timeout (sc : Nat → Except ClientError PollEvent) (tok : String)
    (mw : Int) (fuel : Nat) (delay elapsed : ℚ) (calls : Nat)
    (p : OperationProgress) (c : Nat) (sleeps : List ℚ)
    (hnt : ∀ n, nonTerminalOk (sc n))
    (h : pollLoop sc tok mw fuel delay elapsed calls = some (p, c, sleeps)) :
    p.operation_status = .IN_PROGRESS ∧
    p.retry_after = some (pyInt (lastComputedDelay delay sleeps)) ∧
    p.status_message =
      some ("Operation still in progress after " ++ toString mw ++ "s") := by
  induction fuel generalizing delay elapsed calls p c sleeps with
  | zero => simp [pollLoop] at h
  | succ fuel ih =>
      simp only [pollLoop] at h
      by_cases he : elapsed < (mw : ℚ)
      · obtain ⟨pe, hpe, hterm⟩ := hnt calls
        simp only [he, if_true, hpe, hterm, Bool.false_eq_true, if_false] at h
        rcases hrec : pollLoop sc tok mw fuel (min (delay * (3 / 2)) 30)
            (elapsed + delay) (calls + 1) with _ | ⟨p', c', ss⟩
        · rw [hrec] at h
          simp at h
        · rw [hrec] at h
          simp only [Option.some.injEq, Prod.mk.injEq] at h
          obtain ⟨hp, hc, hsl⟩ := h
          subst hp
          subst hsl
          rw [lastComputedDelay_cons]
          exact ih _ _ _ _ _ _ hrec
      · simp only [he, if_false] at h
        simp only [Option.some.injEq, Prod.mk.injEq] at h
        obtain ⟨hp, hc, hsl⟩ := h
        subst hp
        subst hsl
        simp [timeoutPoll, lastComputedDelay]

/-- C2 witness for the amended claim: the `max_wait_seconds = 5`,
`initial_delay = 10` run returns IN_PROGRESS with `retry_after` equal to
the truncated last computed delay. -/
theorem C2_soft_timeout_witness :
    (timeoutPoll "tok" 5 15).operation_status = .IN_PROGRESS ∧
    (timeoutPoll "tok" 5 15).retry_after =
      some (pyInt (lastComputedDelay 10 [10])) ∧
    (timeoutPoll "tok" 5 15).status_message =
      some ("Operation still in progress after " ++ toString (5 : Int) ++ "s") :=
  C2_soft_timeout nonTermStatus "tok" 5 3 10 0 0 (timeoutPoll "tok" 5 15) 1 [10]
    (fun _ => ⟨⟨some .IN_PROGRESS, none, none, none, none⟩, rfl, rfl⟩)
    (by norm_num [_poll_operation_status, pollLoop, nonTermStatus,
      OpPStatus.isTerminal, timeoutPoll])

/-- C2 counterexample: in the `max_wait_seconds = 5`, `initial_delay = 10`
scenario the poller makes exactly one status call, sleeps once for 10s,
and returns `retry_after = 15` (the grown delay), not 10 as claimed. -/
theorem C2_counterexample :
    _poll_operation_status nonTermStatus "tok" 5 10 3 =
      some (timeoutPoll "tok" 5 15, 1, [10]) ∧
    (timeoutPoll "tok" 5 15).retry_after = some 15 ∧
    (timeoutPoll "tok" 5 15).retry_after ≠ some 10 := by
  refine ⟨?_, ?_, ?_⟩
  · norm_num [_poll_operation_status, pollLoop, nonTermStatus,
      OpPStatus.isTerminal, timeoutPoll]
  · norm_num [timeoutPoll, pyInt, ratFloor_eq_intFloor]
  · norm_num [timeoutPoll, pyInt, ratFloor_eq_intFloor]

/-! ## C6 — backoff monotonicity and ceiling -/

/-- C6 (amended): provided the initial delay lies within `[0, 30]` (as the
default 2.0 does), the sleep delays of one poller call are non-decreasing,
each next delay is the previous multiplied by 1.5 and capped at 30, and no
sleep delay exceeds 30 seconds.  (For initial delays above the ceiling the
first sleep exceeds 30 and the second delay drops — see the
counterexample.) -/
theorem C6_backoff (sc : Nat → Except ClientError PollEvent) (tok : String)
    (mw : Int) (fuel : Nat) (delay elapsed : ℚ) (calls : Nat)
    (p : OperationProgress) (c : Nat) (sleeps : List ℚ)
    (h0 : 0 ≤ delay) (h30 : delay ≤ 30)
    (h : pollLoop sc tok mw fuel delay elapsed calls = some (p, c, sleeps)) :
    List.Chain' (fun a b => b = min (a * (3 / 2)) 30) sleeps ∧
    List.Chain' (· ≤ ·) sleeps ∧ ∀ s ∈ sleeps, s ≤ 30 := by
  have main : ∀ fuel delay elapsed calls (p : OperationProgress) (c : Nat)
      (sleeps : List ℚ), 0 ≤ delay → delay ≤ 30 →
      pollLoop sc tok mw fuel delay elapsed calls = some (p, c, sleeps) →
      List.Chain' (fun a b => b = min (a * (3 / 2)) 30) sleeps ∧
      List.Chain' (· ≤ ·) sleeps ∧ (∀ s ∈ sleeps, s ≤ 30) ∧
      (∀ a, sleeps.head? = some a → a = delay) := by
    intro fuel
    induction fuel with
    | zero =>
        intro delay elapsed calls p c sleeps _ _ h
        simp [pollLoop] at h
    | succ fuel ih =>
        intro delay elapsed calls p c sleeps h0 h30 h
        simp only [pollLoop] at h
        by_cases he : elapsed < (mw : ℚ)
        · rcases hsc : sc calls with e | pe
          · simp only [he, if_true, hsc, Option.some.injEq, Prod.mk.injEq] at h
            obtain ⟨-, -, hsl⟩ := h
            subst hsl
            simp
          · by_cases ht : (pe.operationStatus.getD .PENDING).isTerminal
            · simp only [he, if_true, hsc, ht, Option.some.injEq, Prod.mk.injEq] at h
              obtain ⟨-, -, hsl⟩ := h
              subst hsl
              simp
            · simp only [he, if_true, hsc, ht, Bool.false_eq_true, if_false] at h
              rcases hrec : pollLoop sc tok mw fuel (min (delay * (3 / 2)) 30)
                  (elapsed + delay) (calls + 1) with _ | ⟨p', c', ss⟩
              · rw [hrec] at h
                simp at h
              · rw [hrec] at h
                simp only [Option.some.injEq, Prod.mk.injEq] at h
                obtain ⟨hp, hc, hsl⟩ := h
                have hd0 : (0 : ℚ) ≤ min (delay * (3 / 2)) 30 :=
                  le_min (mul_nonneg h0 (by norm_num)) (by norm_num)
                have hd30 : min (delay * (3 / 2)) 30 ≤ 30 := min_le_right _ _
                obtain ⟨ch1, ch2, bnd, hhead⟩ := ih _ _ _ _ _ _ hd0 hd30 hrec
                subst hsl
                refine ⟨?_, ?_, ?_, ?_⟩
                · refine List.chain'_cons'.mpr ⟨?_, ch1⟩
                  intro b hb
                  exact hhead b hb
                · refine List.chain'_cons'.mpr ⟨?_, ch2⟩
                  intro b hb
                  rw [hhead b hb]
                  exact le_min (le_mul_of_one_le_right h0 (by norm_num)) h30
                · intro s hs
                  rcases List.mem_cons.mp hs with hs | hs
                  · exact hs ▸ h30
                  · exact bnd s hs
                · intro a ha
                  simp only [List.head?_cons, Option.some.injEq] at ha
                  exact ha.symm
        · simp only [he, if_false, Option.some.injEq, Prod.mk.injEq] at h
          obtain ⟨-, -, hsl⟩ := h
          subst hsl
          simp
  obtain ⟨ch1, ch2, bnd, -⟩ := main fuel delay elapsed calls p c sleeps h0 h30 h
  exact ⟨ch1, ch2, bnd⟩

/-- C6 witness for the amended claim: a run with initial delay 10 sleeps
for 10 then 15 seconds, a non-decreasing trace obeying the growth rule and
the ceiling. -/
theorem C6_backoff_witness :
    List.Chain' (fun a b => b = min (a * (3 / 2)) 30) [(10 : ℚ), 15] ∧
    List.Chain' (· ≤ ·) [(10 : ℚ), 15] ∧ ∀ s ∈ [(10 : ℚ), 15], s ≤ 30 :=
  C6_backoff nonTermStatus "tok" 20 5 10 0 0 (timeoutPoll "tok" 20 (45 / 2)) 2
    [10, 15] (by norm_num) (by norm_num)
    (by norm_num [pollLoop, nonTermStatus, OpPStatus.isTerminal, timeoutPoll])

/-- C6 counterexample: with `initial_delay = 40` the first sleep lasts 40s
(beyond the 30s ceiling) and the second delay, 30s, is smaller than its
predecessor — so neither the monotonicity nor the ceiling part of the
claim holds for every call. -/
theorem C6_counterexample :
    _poll_operation_status nonTermStatus "tok" 50 40 5 =
      some (timeoutPoll "tok" 50 30, 2, [40, 30]) ∧
    ¬ List.Chain' (· ≤ ·) [(40 : ℚ), 30] ∧
    ¬ (∀ s ∈ [(40 : ℚ), 30], s ≤ 30) := by
  refine ⟨?_, ?_, ?_⟩
  · norm_num [_poll_operation_status, pollLoop, nonTermStatus,
      OpPStatus.isTerminal, timeoutPoll]
  · intro hch
    have := (List.chain'_cons'.mp hch).1 30 rfl
    norm_num at this
  · intro hall
    have := hall 40 (by norm_num)
    norm_num at this

/-! ## C1 — error boundary of the loop -/

/-- C1 (amended): an Anthropic connectivity or status failure raised by
the LOOP-LEVEL generation call is caught at any iteration and converted
into a diagnostic error string returned (with the history as mutated so
far) instead of raised. -/
theorem C1_loop_generation_failure_caught (env : AgentEnv) (user : String)
    (fuel : Nat) (history : List Turn) (fr : String) (e : GenError)
    (h : env.loopGen history = .error e) :
    processLoop env user (fuel + 1) history fr =
      .ok (generationErrorText e, history) := by
  simp only [processLoop, h]

/-- C1 witness: a concrete run whose first generation call hits a
connection failure returns the diagnostic string. -/
theorem C1_loop_generation_failure_caught_witness :
    processLoop c1wEnv "hello" 5 [] "" =
      .ok (generationErrorText (.apiConnection "down"), []) :=
  C1_loop_generation_failure_caught c1wEnv "hello" 4 [] "" (.apiConnection "down") rfl

/-- C1 counterexample: a connectivity failure during narration of a
SUCCESSFUL tool result is rewrapped as `ToolExecutionError` inside the
dispatcher and escapes `process_request` as a raised exception — so not
every text-generation failure is converted to a string, and a fault does
reach the caller. -/
theorem C1_counterexample :
    process_request c1Env "hi" [] 10 =
      .error (.toolExecution "Failed to connect to Anthropic API: boom") := by
  rfl

/-! ## C3 — budget exhaustion of the loop -/

/-- `iterTurns` contributes two turns per iteration. -/
theorem iterTurns_length (ac : List ContentBlock) (trs : List ToolResultEntry) :
    ∀ n, (iterTurns ac trs n).length = 2 * n := by
  intro n
  induction n with
  | zero => rfl
  | succ m ih =>
      simp only [iterTurns, List.length_cons, ih]
      omega

/-- With at least one tool result the end-of-iteration update appends
exactly the assistant turn followed by the tool-result turn. -/
theorem appendTurns_eq_of_ne (hist : List Turn) (ac : List ContentBlock)
    (trs : List ToolResultEntry) (txt : String) (hne : trs ≠ []) :
    appendTurns hist ⟨ac, trs, txt⟩ =
      hist ++ [Turn.mk "assistant" (.ofBlocks ac), Turn.mk "user" (.ofResults trs)] := by
  simp [appendTurns, hne]

/-- Under a constant model response that always requests a tool call and
never signals completion, the loop runs its whole budget: each iteration
appends one assistant turn and one tool-result turn, and the returned
text is the FINAL iteration's buffer (earlier buffers are overwritten)
plus the budget note. -/
theorem processLoop_const_toolUse (env : AgentEnv) (user : String)
    (resp : ModelResponse) (ac : List ContentBlock) (trs : List ToolResultEntry)
    (txt : String)
    (hg : ∀ h, env.loopGen h = .ok resp)
    (hs : resp.stop_reason = .tool_use)
    (hr : runBlocks env user resp.content ⟨[], [], ""⟩ = .ok ⟨ac, trs, txt⟩)
    (hne : trs ≠ []) :
    ∀ (n : Nat) (h : List Turn) (fr : String),
      processLoop env user (n + 1) h fr =
        .ok (txt ++ maxIterNote, h ++ iterTurns ac trs (n + 1)) := by
  intro n
  induction n with
  | zero =>
      intro h fr
      simp only [processLoop, hg h, hr, hs]
      rw [appendTurns_eq_of_ne h ac trs txt hne]
      simp [iterTurns]
  | succ m ih =>
      intro h fr
      rw [processLoop]
      simp only [hg h, hr, hs]
      rw [appendTurns_eq_of_ne h ac trs txt hne]
      rw [ih]
      simp [iterTurns, List.append_assoc]

/-- C3 (amended): for a run whose model constantly requests a tool call
and never signals completion, exhausting the budget of `n + 1` iterations
returns the budget-exceeded note appended to the FINAL iteration's text
and narration only (earlier iterations' buffers are discarded, not
accumulated), while history receives the initial user turn plus exactly
one assistant turn and one tool-result turn per iteration. -/
theorem C3_budget_exhaustion (env : AgentEnv) (user : String) (h0 : List Turn)
    (resp : ModelResponse) (ac : List ContentBlock) (trs : List ToolResultEntry)
    (txt : String) (n : Nat)
    (hg : ∀ h, env.loopGen h = .ok resp)
    (hs : resp.stop_reason = .tool_use)
    (hr : runBlocks env user resp.content ⟨[], [], ""⟩ = .ok ⟨ac, trs, txt⟩)
    (hne : trs ≠ []) :
    process_request env user h0 (n + 1) =
      .ok (txt ++ maxIterNote,
        (h0 ++ [Turn.mk "user" (.ofString user)]) ++ iterTurns ac trs (n + 1)) ∧
    (iterTurns ac trs (n + 1)).length = 2 * (n + 1) :=
  ⟨processLoop_const_toolUse env user resp ac trs txt hg hs hr hne n _ "",
   iterTurns_length ac trs (n + 1)⟩

/-- C3 witness: with budget 3 and a constant tool-calling response the
run returns the final iteration's narration plus the note, and history
gains one user turn plus three assistant/tool-result pairs. -/
theorem C3_budget_exhaustion_witness :
    process_request c3wEnv "deploy" [] 3 =
      .ok ("\n\nError: Unknown tool \x27nosuch\x27" ++ maxIterNote,
        (([] : List Turn) ++ [Turn.mk "user" (.ofString "deploy")]) ++
          iterTurns [ContentBlock.toolUse "t1" "nosuch" noInput]
            [⟨"t1", "error=Unknown tool: nosuch"⟩] 3) ∧
    (iterTurns [ContentBlock.toolUse "t1" "nosuch" noInput]
        [⟨"t1", "error=Unknown tool: nosuch"⟩] 3).length = 2 * 3 :=
  C3_budget_exhaustion c3wEnv "deploy" [] c3wResp
    [ContentBlock.toolUse "t1" "nosuch" noInput]
    [⟨"t1", "error=Unknown tool: nosuch"⟩]
    "\n\nError: Unknown tool \x27nosuch\x27" 2
    (fun _ => rfl) rfl rfl (by simp)

set_option maxRecDepth 4000 in
/-- C3 counterexample: a budget-2 run whose first iteration emits "ALPHA"
and whose second emits "BETA" returns only the second iteration's text
plus the note — the first iteration's text is discarded, contradicting the
claim that all text accumulated across all iterations is returned. -/
theorem C3_counterexample :
    process_request c3cEnv "q" [] 2 =
      .ok ("BETA\n\nError: Unknown tool \x27nosuch\x27\n\n(Note: Maximum processing steps reached)",
        [Turn.mk "user" (.ofString "q"),
         Turn.mk "assistant" (.ofBlocks [.text "ALPHA", .toolUse "t1" "nosuch" noInput]),
         Turn.mk "user" (.ofResults [⟨"t1", "error=Unknown tool: nosuch"⟩]),
         Turn.mk "assistant" (.ofBlocks [.text "BETA", .toolUse "t2" "nosuch" noInput]),
         Turn.mk "user" (.ofResults [⟨"t2", "error=Unknown tool: nosuch"⟩])]) ∧
    ¬ ("ALPHA".toList <:+:
        ("BETA\n\nError: Unknown tool \x27nosuch\x27\n\n(Note: Maximum processing steps reached)").toList) := by
  constructor
  · rfl
  · decide

/-! ## C7 — tool-call / tool-result protocol -/

/-- Walking a round's content segments records the segments verbatim as
assistant content and produces one tool-result entry per tool-call
segment, with the same call ids in the same order. -/
theorem runBlocks_accum (env : AgentEnv) (user : String) :
    ∀ (cbs : List ContentBlock) (acc0 acc : BlockAcc),
      runBlocks env user cbs acc0 = .ok acc →
      acc.assistant_content = acc0.assistant_content ++ cbs ∧
      acc.tool_results.map ToolResultEntry.tool_use_id =
        acc0.tool_results.map ToolResultEntry.tool_use_id ++
          cbs.filterMap ContentBlock.callId := by
  intro cbs
  induction cbs with
  | nil =>
      intro acc0 acc h
      simp only [runBlocks, Except.ok.injEq] at h
      subst h
      simp
  | cons b rest ih =>
      intro acc0 acc h
      cases b with
      | text s =>
          simp only [runBlocks] at h
          obtain ⟨h1, h2⟩ := ih _ _ h
          simp only [h1, h2]
          simp [ContentBlock.callId, List.append_assoc]
      | toolUse id name input =>
          simp only [runBlocks] at h
          rcases hx : _execute_tool env name input user with e | pr
          · rw [hx] at h
            simp at h
          · obtain ⟨result, formatted⟩ := pr
            rw [hx] at h
            obtain ⟨h1, h2⟩ := ih _ _ h
            simp only [h1, h2]
            simp [ContentBlock.callId, List.append_assoc]

/-- The end-of-iteration update only appends to the history. -/
theorem appendTurns_extends (history : List Turn) (acc : BlockAcc) :
    history <+: appendTurns history acc := by
  by_cases he : acc.tool_results.isEmpty
  · simp only [appendTurns, he, if_true]
    exact List.prefix_append _ _
  · simp only [appendTurns, he, Bool.false_eq_true, if_false, List.append_assoc]
    exact List.prefix_append _ _

/-- The loop driver only ever appends to the history it was given. -/
theorem processLoop_history_extends (env : AgentEnv) (user : String) :
    ∀ (fuel : Nat) (history : List Turn) (fr : String) (out : String × List Turn),
      processLoop env user fuel history fr = .ok out → history <+: out.2 := by
  intro fuel
  induction fuel with
  | zero =>
      intro history fr out h
      simp only [processLoop, Except.ok.injEq] at h
      subst h
      exact List.prefix_rfl
  | succ fuel ih =>
      intro history fr out h
      rw [processLoop] at h
      rcases hg : env.loopGen history with e | resp
      · simp only [hg, Except.ok.injEq] at h
        subst h
        exact List.prefix_rfl
      · simp only [hg] at h
        rcases hb : runBlocks env user resp.content ⟨[], [], ""⟩ with e2 | acc
        · simp only [hb] at h
          exact absurd h (by simp)
        · simp only [hb] at h
          cases hsr : resp.stop_reason with
          | tool_use =>
              simp only [hsr] at h
              exact (appendTurns_extends history acc).trans (ih _ _ _ h)
          | end_turn =>
              simp only [hsr] at h
              split at h <;>
                (simp only [Except.ok.injEq] at h; subst h;
                 exact appendTurns_extends history acc)
          | otherReason s =>
              simp only [hsr] at h
              split at h <;>
                (simp only [Except.ok.injEq] at h; subst h;
                 exact appendTurns_extends history acc)

/-- C7: in every iteration the assistant turn records all of the round's
content segments; the tool-result entries correspond one-to-one, in
issuing order, with the round's tool-call segments by call id; when tool
calls occurred the history update is exactly the assistant turn followed
by the single tool-result turn; and the loop driver only ever appends to
history. -/
theorem C7_protocol (env : AgentEnv) (user : String) (cbs : List ContentBlock)
    (acc : BlockAcc) (fuel : Nat) (history : List Turn) (fr : String)
    (out : String × List Turn)
    (hrb : runBlocks env user cbs ⟨[], [], ""⟩ = .ok acc)
    (hp : processLoop env user fuel history fr = .ok out) :
    acc.assistant_content = cbs ∧
    acc.tool_results.map ToolResultEntry.tool_use_id =
      cbs.filterMap ContentBlock.callId ∧
    (acc.tool_results ≠ [] →
      appendTurns history acc =
        history ++ [Turn.mk "assistant" (.ofBlocks acc.assistant_content),
          Turn.mk "user" (.ofResults acc.tool_results)]) ∧
    history <+: out.2 := by
  obtain ⟨h1, h2⟩ := runBlocks_accum env user cbs ⟨[], [], ""⟩ acc hrb
  refine ⟨by simpa using h1, by simpa using h2, fun hne => ?_,
    processLoop_history_extends env user fuel history fr out hp⟩
  simp [appendTurns, hne]

/-- C7 witness: a round with one text segment and two tool calls yields an
assistant turn with all three segments and exactly two tool-result
entries with ids "a1", "a2" in order; the run's history extends the
input history. -/
theorem C7_protocol_witness :
    (BlockAcc.mk
        [ContentBlock.text "hi", ContentBlock.toolUse "a1" "x" noInput,
          ContentBlock.toolUse "a2" "y" noInput]
        [⟨"a1", "error=Unknown tool: x"⟩, ⟨"a2", "error=Unknown tool: y"⟩]
        "hi\n\nError: Unknown tool \x27x\x27\n\nError: Unknown tool \x27y\x27").assistant_content =
      c7wResp.content ∧
    (BlockAcc.mk
        [ContentBlock.text "hi", ContentBlock.toolUse "a1" "x" noInput,
          ContentBlock.toolUse "a2" "y" noInput]
        [⟨"a1", "error=Unknown tool: x"⟩, ⟨"a2", "error=Unknown tool: y"⟩]
        "hi\n\nError: Unknown tool \x27x\x27\n\nError: Unknown tool \x27y\x27").tool_results.map
        ToolResultEntry.tool_use_id =
      c7wResp.content.filterMap ContentBlock.callId ∧
    ((BlockAcc.mk
        [ContentBlock.text "hi", ContentBlock.toolUse "a1" "x" noInput,
          ContentBlock.toolUse "a2" "y" noInput]
        [⟨"a1", "error=Unknown tool: x"⟩, ⟨"a2", "error=Unknown tool: y"⟩]
        "hi\n\nError: Unknown tool \x27x\x27\n\nError: Unknown tool \x27y\x27").tool_results ≠ [] →
      appendTurns []
          (BlockAcc.mk
            [ContentBlock.text "hi", ContentBlock.toolUse "a1" "x" noInput,
              ContentBlock.toolUse "a2" "y" noInput]
            [⟨"a1", "error=Unknown tool: x"⟩, ⟨"a2", "error=Unknown tool: y"⟩]
            "hi\n\nError: Unknown tool \x27x\x27\n\nError: Unknown tool \x27y\x27") =
        [] ++ [Turn.mk "assistant" (.ofBlocks
            [ContentBlock.text "hi", ContentBlock.toolUse "a1" "x" noInput,
              ContentBlock.toolUse "a2" "y" noInput]),
          Turn.mk "user" (.ofResults
            [⟨"a1", "error=Unknown tool: x"⟩, ⟨"a2", "error=Unknown tool: y"⟩])]) ∧
    ([] : List Turn) <+:
      ("hi\n\nError: Unknown tool \x27x\x27\n\nError: Unknown tool \x27y\x27",
        [Turn.mk "assistant" (.ofBlocks
            [ContentBlock.text "hi", ContentBlock.toolUse "a1" "x" noInput,
              ContentBlock.toolUse "a2" "y" noInput]),
          Turn.mk "user" (.ofResults
            [⟨"a1", "error=Unknown tool: x"⟩, ⟨"a2", "error=Unknown tool: y"⟩])]).2 :=
  C7_protocol c7wEnv "u" c7wResp.content
    (BlockAcc.mk
      [ContentBlock.text "hi", ContentBlock.toolUse "a1" "x" noInput,
        ContentBlock.toolUse "a2" "y" noInput]
      [⟨"a1", "error=Unknown tool: x"⟩, ⟨"a2", "error=Unknown tool: y"⟩]
      "hi\n\nError: Unknown tool \x27x\x27\n\nError: Unknown tool \x27y\x27")
    3 [] ""
    ("hi\n\nError: Unknown tool \x27x\x27\n\nError: Unknown tool \x27y\x27",
      [Turn.mk "assistant" (.ofBlocks
          [ContentBlock.text "hi", ContentBlock.toolUse "a1" "x" noInput,
            ContentBlock.toolUse "a2" "y" noInput]),
        Turn.mk "user" (.ofResults
          [⟨"a1", "error=Unknown tool: x"⟩, ⟨"a2", "error=Unknown tool: y"⟩])])
    rfl rfl
